import Mathlib

/-!
Verification of the chat-completion route handler
(`app/(chat)/api/chat/route.ts`) against its specification.

The TypeScript source is shallowly embedded: message parts become a
structure carrying the `type` tag and the `text` payload; the pure
normaliser `normaliseA2AParts` is translated directly; the stateful
pieces (the lazily initialised resumable-stream context, the POST
admission gate, the DELETE handler) become explicit state-passing
functions over small record types.  External collaborators that live
outside the given sources (the database query layer, the
`createUIMessageStream` library) are modelled from the specification's
contracts and marked as such in their doc comments.
-/

/-- One raw message part as the route handler sees it: a JS object with
a `type` discriminator string and (for payload-bearing parts) a `text`
string.  Parts whose JS objects carry no `text` field are modelled with
the empty string, which the source never reads for such parts. -/
structure ContentPart where
  type : String
  text : String
deriving DecidableEq, Repr

/-- Embedding of `normaliseA2AParts` (route.ts lines 65–76): keep the
parts whose `type` is `"text"`, join their `text` fields with no
separator, and return a single text part when the join is truthy
(non-empty), otherwise the empty array. -/
def normaliseA2AParts (parts : List ContentPart) : List ContentPart :=
  let text := String.join ((parts.filter (fun p => p.type = "text")).map (fun p => p.text))
  if text = "" then [] else [⟨"text", text⟩]

/-- The concatenation, in emission order and with no separator, of the
`text` contents of the text-typed fragments of a raw part sequence —
the reference value the spec's normalisation contract is stated in. -/
def visibleTextConcat (parts : List ContentPart) : String :=
  parts.foldr (fun p acc => if p.type = "text" then p.text ++ acc else acc) ""

/-- The concatenation of all client-renderable payload: the spec calls
both `text` and `reasoning` parts visible. -/
def visibleConcat (parts : List ContentPart) : String :=
  parts.foldr (fun p acc => if p.type = "text" ∨ p.type = "reasoning" then p.text ++ acc else acc) ""

/-- Structural step markers (`step-start` / `step-end`). -/
def isStepMarker (p : ContentPart) : Bool :=
  p.type = "step-start" || p.type = "step-end"

/-- Embedding of the part-selection expression shared by the user-turn
save (route.ts lines 171–173) and the `onFinish` save (lines 241–244):
parts go through `normaliseA2AParts` exactly when the selected model is
the a2a model, and are passed through unchanged otherwise. -/
def cleanedParts (selectedChatModel : String) (parts : List ContentPart) : List ContentPart :=
  if selectedChatModel = "a2a-model" then normaliseA2AParts parts else parts

lemma string_join_cons (s : String) (l : List String) :
    String.join (s :: l) = s ++ String.join l := by
  apply String.ext
  simp [String.join_eq, String.data_append]

lemma join_filter_map_eq_visibleTextConcat (parts : List ContentPart) :
    String.join ((parts.filter (fun p => p.type = "text")).map (fun p => p.text))
      = visibleTextConcat parts := by
  induction parts with
  | nil => rfl
  | cons p rest ih =>
    by_cases h : p.type = "text"
    · simp [List.filter_cons, h, string_join_cons, visibleTextConcat, ih]
    · simp [List.filter_cons, h, visibleTextConcat]
      simpa [visibleTextConcat] using ih

lemma normaliseA2AParts_eq (parts : List ContentPart) :
    normaliseA2AParts parts =
      if visibleTextConcat parts = "" then [] else [⟨"text", visibleTextConcat parts⟩] := by
  unfold normaliseA2AParts
  rw [join_filter_map_eq_visibleTextConcat]

/-- C1: `normaliseA2AParts` discards every non-text fragment,
concatenates the text contents of the rest in emission order with no
separator, and returns exactly one text part holding that concatenation
when it is non-empty and the empty sequence when it is empty. -/
theorem C1_normalise_spec (parts : List ContentPart) :
    normaliseA2AParts parts =
      if visibleTextConcat parts = "" then [] else [⟨"text", visibleTextConcat parts⟩] :=
  normaliseA2AParts_eq parts

/-- C8: `normaliseA2AParts` is a fixed point on its own output:
re-normalising a normalised sequence changes nothing. -/
theorem C8_normalise_idempotent (parts : List ContentPart) :
    normaliseA2AParts (normaliseA2AParts parts) = normaliseA2AParts parts := by
  rw [normaliseA2AParts_eq parts]
  by_cases h : visibleTextConcat parts = ""
  · simp [h, normaliseA2AParts, String.join]
  · simp [h, normaliseA2AParts, String.join]

lemma visibleTextConcat_empty_of_no_text (parts : List ContentPart)
    (h : parts.all (fun p => !(p.type = "text")) = true) :
    visibleTextConcat parts = "" := by
  induction parts with
  | nil => rfl
  | cons p rest ih =>
    simp [List.all_cons] at h
    simp [visibleTextConcat, h.1]
    simpa [visibleTextConcat] using ih (by simpa [List.all_eq_true] using h.2)

/-- C2 counterexample: a raw sequence holding a single `reasoning` part
with payload `"r"` has visible (text-or-reasoning) content `"r"`, but
the parts stored for the normalized turn are `normaliseA2AParts` of it,
which is empty: the reasoning payload is dropped, so the concatenation
of visible content is not preserved. -/
theorem C2_counterexample :
    ¬ visibleConcat (cleanedParts "a2a-model" [⟨"reasoning", "r"⟩]) =
        visibleConcat [⟨"reasoning", "r"⟩] := by
  decide

/-- C2 (amended): the parts stored for the normalized turn contain no
structural step-marker parts, and the concatenation of the text-typed
content of the stored parts equals the concatenation of the text-typed
content of the raw sequence, in original emission order.  (Reasoning
content, though client-renderable, is not preserved: see the
counterexample.) -/
theorem C2_no_markers_text_preserved (parts : List ContentPart) :
    (cleanedParts "a2a-model" parts).all (fun p => !(isStepMarker p)) = true ∧
      visibleTextConcat (cleanedParts "a2a-model" parts) = visibleTextConcat parts := by
  unfold cleanedParts
  rw [if_pos rfl, normaliseA2AParts_eq]
  by_cases h : visibleTextConcat parts = ""
  · rw [if_pos h]
    exact ⟨rfl, h.symm⟩
  · rw [if_neg h]
    refine ⟨by simp [isStepMarker], ?_⟩
    simp [visibleTextConcat]

/-- The caller's identity as the route sees it (from `auth()`):
`session.user.id` and `session.user.type`. -/
structure Session where
  userId : String
  userType : String
deriving DecidableEq, Repr

/-- A stored conversation record (`chat` table row). -/
structure Chat where
  id : String
  userId : String
  title : String
  visibility : String
deriving DecidableEq, Repr

/-- A persisted message row as passed to `saveMessages`. -/
structure SavedMessage where
  chatId : String
  id : String
  role : String
  parts : List ContentPart
deriving DecidableEq, Repr

/-- The `ChatSDKError` codes the route returns as structured responses. -/
inductive ChatSDKErrorCode where
  | badRequestApi
  | unauthorizedChat
  | forbiddenChat
  | rateLimitChat
  | offlineChat
deriving DecidableEq, Repr

/-- Outcome of the POST handler's admission phase: either a structured
error response, or admission, carrying the user turn that is persisted
via `saveMessages` on the way in. -/
inductive PostOutcome where
  | error (e : ChatSDKErrorCode)
  | admitted (savedUserTurn : SavedMessage)
deriving DecidableEq, Repr

/-- Embedding of the admission phase of `POST` (route.ts lines 104–186):
reject `unauthorized:chat` with no session; reject `rate_limit:chat`
when the trailing-24h message count is strictly greater than the tier
quota (`messageCount > entitlementsByUserType[userType].maxMessagesPerDay`);
for an existing chat, reject `forbidden:chat` unless the caller owns it
(a missing chat is created instead); then persist the user turn with
`cleanedParts` applied to the inbound message parts.  The tier quota is
passed in as `maxMessagesPerDay`, the value the entitlements table maps
the caller's type to. -/
def postAdmission (session : Option Session) (maxMessagesPerDay messageCount : Nat)
    (chat : Option Chat) (chatId messageId selectedChatModel : String)
    (messageParts : List ContentPart) : PostOutcome :=
  match session with
  | none => .error .unauthorizedChat
  | some s =>
    if messageCount > maxMessagesPerDay then .error .rateLimitChat
    else
      match chat with
      | some c =>
        if ¬ c.userId = s.userId then .error .forbiddenChat
        else .admitted ⟨chatId, messageId, "user", cleanedParts selectedChatModel messageParts⟩
      | none =>
        .admitted ⟨chatId, messageId, "user", cleanedParts selectedChatModel messageParts⟩

/-- C3 counterexample: a caller whose trailing-24h count is exactly at
the quota (count = quota = 5) is NOT rejected with `RateLimited` — the
gate only rejects on strict excess, so the claim's first clause fails. -/
theorem C3_counterexample :
    postAdmission (some ⟨"u1", "regular"⟩) 5 5 none "c1" "m1" "chat-model" [] ≠
      PostOutcome.error ChatSDKErrorCode.rateLimitChat := by
  decide

/-- C3 (amended): the gate rejects with `RateLimited` if and only if
the trailing-24-hour message count strictly exceeds the tier quota; in
particular a caller exactly at the quota is still admitted, and one
below the quota is admitted. -/
theorem C3_rate_limit_iff_exceeds (s : Session) (quota count : Nat) (chat : Option Chat)
    (chatId msgId model : String) (parts : List ContentPart) :
    postAdmission (some s) quota count chat chatId msgId model parts =
        PostOutcome.error ChatSDKErrorCode.rateLimitChat ↔ quota < count := by
  unfold postAdmission
  by_cases h : count > quota
  · simp [h]
  · simp [h]
    match chat with
    | none => simp
    | some c =>
      by_cases ho : c.userId = s.userId
      · simp [ho]
      · simp [ho]

/-- C10: when the selected model is the a2a model, the inbound user
message's parts go through `normaliseA2AParts` before the user turn is
persisted — a user message with no text fragments is stored with empty
parts — and for any other model the parts are persisted unchanged. -/
theorem C10_user_parts_cleaned (model : String) (parts : List ContentPart)
    (s : Session) (quota count : Nat) (chat : Option Chat) (chatId msgId : String) :
    cleanedParts "a2a-model" parts = normaliseA2AParts parts ∧
      (parts.all (fun p => !(p.type = "text")) = true →
        cleanedParts "a2a-model" parts = []) ∧
      (¬ model = "a2a-model" → cleanedParts model parts = parts) ∧
      (∀ t, postAdmission (some s) quota count chat chatId msgId model parts =
          PostOutcome.admitted t → t.parts = cleanedParts model parts) := by
  refine ⟨rfl, ?_, ?_, ?_⟩
  · intro h
    simp [cleanedParts, normaliseA2AParts_eq, visibleTextConcat_empty_of_no_text parts h]
  · intro h
    simp [cleanedParts, h]
  · intro t ht
    unfold postAdmission at ht
    by_cases h : count > quota
    · simp [h] at ht
    · simp [h] at ht
      match chat with
      | none =>
        simp at ht
        rw [← ht]
      | some c =>
        by_cases ho : c.userId = s.userId
        · simp [ho] at ht
          rw [← ht]
        · simp [ho] at ht

/-- Witness for C10 at a concrete input: a user message holding only a
step marker, sent to the a2a model, is stored with an empty parts list. -/
theorem C10_witness :
    cleanedParts "a2a-model" [⟨"step-start", ""⟩] = [] :=
  (C10_user_parts_cleaned "a2a-model" [⟨"step-start", ""⟩] ⟨"u1", "regular"⟩ 5 0 none
    "c1" "m1").2.1 (by decide)

/-- Modelled from the spec: `getChatById` from the database query layer
(not under the given sources); §6 gives the Message Store contract
`getConversation(id)`, queryable by conversation id — the stored
conversation with the given id, if any. -/
def getChatById (chats : List Chat) (id : String) : Option Chat :=
  chats.find? (fun c => c.id = id)

/-- The persistent store a DELETE request runs against: the
conversations and their turns. -/
structure DB where
  chats : List Chat
  messages : List SavedMessage
deriving DecidableEq, Repr

/-- Modelled from the spec: `deleteChatById` from the database query
layer (not under the given sources); §6's second entry point "deletes a
conversation and its turns, returning the deleted record". -/
def deleteChatById (db : DB) (id : String) : DB × Option Chat :=
  (⟨db.chats.filter (fun c => !(c.id = id)),
    db.messages.filter (fun m => !(m.chatId = id))⟩,
   getChatById db.chats id)

/-- Result of the DELETE handler.  `typeError` is the unhandled
JavaScript `TypeError` thrown when `chat.userId` is read while
`getChatById` returned no record: the handler has no try/catch, so this
propagates instead of becoming a structured `ChatSDKError` response. -/
inductive DeleteResult where
  | badRequest
  | unauthorized
  | forbidden
  | ok (deletedChat : Option Chat)
  | typeError
deriving DecidableEq, Repr

/-- Embedding of `DELETE` (route.ts lines 307–330): missing `id` query
parameter rejects `bad_request:api`; missing session rejects
`unauthorized:chat`; then `chat.userId` is read off the looked-up
record with no null guard — a missing record is a thrown `TypeError` —
and a non-owner is rejected `forbidden:chat` before any deletion;
otherwise the chat is deleted and the deleted record returned. -/
def handleDelete (db : DB) (idParam : Option String) (session : Option Session) :
    DeleteResult × DB :=
  match idParam with
  | none => (.badRequest, db)
  | some id =>
    match session with
    | none => (.unauthorized, db)
    | some s =>
      match getChatById db.chats id with
      | none => (.typeError, db)
      | some chat =>
        if ¬ chat.userId = s.userId then (.forbidden, db)
        else
          let r := deleteChatById db id
          (.ok r.2, r.1)

/-- C7: a delete request for a conversation owned by user A,
authenticated as a different user B, returns Forbidden and leaves the
store — the conversation and its turns — unchanged. -/
theorem C7_delete_forbidden_unchanged (db : DB) (id : String) (chat : Chat) (s : Session)
    (hchat : getChatById db.chats id = some chat)
    (howner : ¬ chat.userId = s.userId) :
    handleDelete db (some id) (some s) = (DeleteResult.forbidden, db) := by
  simp [handleDelete, hchat, howner]

/-- Witness for C7: a store holding one conversation owned by `"A"`
with one turn; a delete request authenticated as `"B"` is Forbidden and
the store is returned unchanged. -/
theorem C7_witness :
    handleDelete ⟨[⟨"c1", "A", "t", "private"⟩], [⟨"c1", "m1", "user", []⟩]⟩
        (some "c1") (some ⟨"B", "regular"⟩) =
      (DeleteResult.forbidden, ⟨[⟨"c1", "A", "t", "private"⟩], [⟨"c1", "m1", "user", []⟩]⟩) :=
  C7_delete_forbidden_unchanged ⟨[⟨"c1", "A", "t", "private"⟩], [⟨"c1", "m1", "user", []⟩]⟩
    "c1" ⟨"c1", "A", "t", "private"⟩ ⟨"B", "regular"⟩ (by decide) (by decide)

/-- C9: when the id matches no stored conversation, the ownership check
reads `userId` off the absent record with no null guard: the request
ends in an unhandled TypeError, not in a structured bad-request or
not-found response. -/
theorem C9_delete_missing_unguarded (db : DB) (id : String) (s : Session)
    (h : getChatById db.chats id = none) :
    handleDelete db (some id) (some s) = (DeleteResult.typeError, db) ∧
      ¬ (handleDelete db (some id) (some s)).1 = DeleteResult.badRequest := by
  refine ⟨by simp [handleDelete, h], ?_⟩
  simp [handleDelete, h]

/-- Witness for C9: the empty store has no conversation `"c1"`, and the
delete request for it ends in the unhandled TypeError. -/
theorem C9_witness :
    handleDelete ⟨[], []⟩ (some "c1") (some ⟨"A", "regular"⟩) =
      (DeleteResult.typeError, ⟨[], []⟩) :=
  (C9_delete_missing_unguarded ⟨[], []⟩ "c1" ⟨"A", "regular"⟩ (by decide)).1

/-- An opaque handle to the process-wide resumable stream context. -/
inductive ResumableStreamContext where
  | mk
deriving DecidableEq, Repr

/-- Embedding of one call to `getStreamContext` (route.ts lines 45–63)
as a step on the module-level `globalStreamContext` variable.  The
outcome of `createResumableStreamContext` — which throws when the
configuration (REDIS_URL) is missing — is an input, since it is
external.  Returns the new value of the global, the value returned to
the caller, and whether this call attempted initialization (entered the
`if (!globalStreamContext)` body).  A thrown create error is caught:
both branches of the catch only log, so the global stays null and the
call returns null. -/
def getStreamContextStep (globalStreamContext : Option ResumableStreamContext)
    (createResult : Except String ResumableStreamContext) :
    Option ResumableStreamContext × Option ResumableStreamContext × Bool :=
  match globalStreamContext with
  | some ctx => (some ctx, some ctx, false)
  | none =>
    match createResult with
    | .ok ctx => (some ctx, some ctx, true)
    | .error _ => (none, none, true)

/-- C5 counterexample: after a first call whose initialization fails
with the missing-REDIS_URL configuration error, a second call attempts
initialization again — the failure was not cached as a disabled state. -/
theorem C5_counterexample :
    (getStreamContextStep
        (getStreamContextStep none
          (Except.error "connection string REDIS_URL is not defined")).1
        (Except.error "connection string REDIS_URL is not defined")).2.2 = true := by
  decide

/-- C5 (amended): initialization failure due to missing configuration
is non-fatal — the error is caught and the call returns no context —
but it is not cached: the global stays unset, so every later call while
it is unset attempts initialization again; only a successful
initialization is cached, after which no call re-attempts. -/
theorem C5_failure_not_cached (msg : String) (ctx : ResumableStreamContext)
    (r : Except String ResumableStreamContext) :
    getStreamContextStep none (Except.error msg) = (none, none, true) ∧
      getStreamContextStep (some ctx) r = (some ctx, some ctx, false) := by
  exact ⟨rfl, rfl⟩

/-- The response the POST handler builds from the stream (route.ts
lines 266–276): resumable when a stream context is available, otherwise
the plain stream piped straight through. -/
inductive ChatResponse where
  | resumable (streamId : String)
  | plain
deriving DecidableEq, Repr

/-- Embedding of the stream-response selection at the end of `POST`:
`getStreamContext()` is called, and the response wraps the resumable
stream when it returned a context, else the plain stream. -/
def respondWithStream (streamContext : Option ResumableStreamContext)
    (streamId : String) : ChatResponse :=
  match streamContext with
  | some _ => .resumable streamId
  | none => .plain

/-- C6: when the backing medium is unavailable — the create call throws
its configuration error — the handler does not raise: the error is
caught inside `getStreamContext`, which returns no context, and the
request falls back to the plain non-resumable stream response.  The
composition is a total function into `ChatResponse`, so no error
escapes to the caller. -/
theorem C6_fallback_plain_stream (msg streamId : String) :
    respondWithStream (getStreamContextStep none (Except.error msg)).2.1 streamId =
      ChatResponse.plain := by
  rfl

/-- One event produced by the generation backend while streaming. -/
inductive StreamEvent where
  | textDelta (s : String)
  | reasoningDelta (s : String)
  | errorRaised (internal : String)
deriving DecidableEq, Repr

/-- One event the client receives on the outgoing stream. -/
inductive OutgoingEvent where
  | delta (e : StreamEvent)
  | errorEvent (msg : String)
  | finish
deriving DecidableEq, Repr

/-- The generic user-facing message the `onError` callback returns
(route.ts line 262); it carries no internal detail of the error. -/
def onErrorMessage : String := "Oops, an error occurred!"

/-- A finalized assistant message as `onFinish` receives it. -/
structure FinishedMessage where
  id : String
  role : String
  parts : List ContentPart
deriving DecidableEq, Repr

/-- Embedding of the `onFinish` callback's save (route.ts lines
234–256): each finalized message is persisted with `cleanedParts`
applied to its parts, attributed to the chat. -/
def onFinishSave (selectedChatModel chatId : String)
    (messages : List FinishedMessage) : List SavedMessage :=
  messages.map (fun m => ⟨chatId, m.id, m.role, cleanedParts selectedChatModel m.parts⟩)

/-- Whether a backend event is a raised error. -/
def isErrorRaised : StreamEvent → Bool
  | .errorRaised _ => true
  | _ => false

/-- Modelled from the spec: the run of `createUIMessageStream` (library
`ai`, not under the given sources), with the repository's callbacks
plugged in.  §4.2: events are forwarded to the client as they are
produced; on an error during event production the stream still closes
cleanly with a single terminal error event whose message is what the
`onError` callback returns, and the in-progress turn is not persisted
(`onFinish` is not invoked); on clean completion `onFinish` persists
the finalized messages.  Returns the events the client receives and
the messages persisted. -/
def runUIMessageStream (selectedChatModel chatId : String) :
    List StreamEvent → List FinishedMessage → List OutgoingEvent × List SavedMessage
  | [], finalMessages =>
      ([OutgoingEvent.finish], onFinishSave selectedChatModel chatId finalMessages)
  | StreamEvent.errorRaised e :: _, _ =>
      let _ := e
      ([OutgoingEvent.errorEvent onErrorMessage], [])
  | e :: rest, finalMessages =>
      let r := runUIMessageStream selectedChatModel chatId rest finalMessages
      (OutgoingEvent.delta e :: r.1, r.2)

/-- C4: for a generation call that raises mid-stream after emitting
some (error-free) events, nothing is persisted for the in-progress
assistant message, and the client stream ends with exactly one terminal
error event carrying the generic `onError` message — the internal error
detail `err` does not reach the client. -/
theorem C4_error_no_persist_generic (model chatId err : String)
    (pre post : List StreamEvent) (finalMessages : List FinishedMessage)
    (h : pre.all (fun e => !(isErrorRaised e)) = true) :
    runUIMessageStream model chatId (pre ++ StreamEvent.errorRaised err :: post)
        finalMessages =
      (pre.map OutgoingEvent.delta ++ [OutgoingEvent.errorEvent onErrorMessage], []) := by
  induction pre with
  | nil => rfl
  | cons e rest ih =>
    simp [List.all_cons] at h
    have hr := ih (by simpa [List.all_eq_true] using h.2)
    match e with
    | .textDelta s =>
      simp [runUIMessageStream, hr]
    | .reasoningDelta s =>
      simp [runUIMessageStream, hr]
    | .errorRaised s =>
      simp [isErrorRaised] at h

/-- Witness for C4, the spec's own scenario: the backend emits two text
deltas and then raises; the client receives the two deltas and one
terminal generic error event, and nothing is persisted. -/
theorem C4_witness :
    runUIMessageStream "chat-model" "c1"
        [StreamEvent.textDelta "a", StreamEvent.textDelta "b",
          StreamEvent.errorRaised "backend exploded"]
        [⟨"m1", "assistant", [⟨"text", "ab"⟩]⟩] =
      ([OutgoingEvent.delta (StreamEvent.textDelta "a"),
        OutgoingEvent.delta (StreamEvent.textDelta "b"),
        OutgoingEvent.errorEvent onErrorMessage], []) :=
  C4_error_no_persist_generic "chat-model" "c1" "backend exploded"
    [StreamEvent.textDelta "a", StreamEvent.textDelta "b"] []
    [⟨"m1", "assistant", [⟨"text", "ab"⟩]⟩] (by decide)
